import Mathlib

/-!
Shallow embedding of `src/app.py` (ElegantPraat), a single-page Streamlit
viewer.  The whole program is one straight-line request handler: it uploads a
WAV (and optionally a TextGrid), writes them to temporary files, calls the
external parselmouth/Praat library for analysis, lays out matplotlib subplots,
optionally runs a user script through the external Praat engine, and deletes
the temporary files.

We model one request as a pure function from the user's inputs and the
behavior of the external library (an `Engine` record of possibly-failing
calls) to the list of observable effects the handler performs, together with
an `Option String` recording an uncaught exception (Python exceptions that
propagate to the hosting framework abort the request at that point; effects
already performed stay performed, later ones do not happen).
-/

namespace ElegantPraat

/-- A parselmouth `Sound` object as the program uses it: its time span
(`xmin`, `xmax`).  `parselmouth.Sound(wav_path)` (app.py line 90) yields a
sound whose span is `[0, duration]`; claims quantify over this via
hypotheses. -/
structure Sound where
  xmin : ℚ
  xmax : ℚ
deriving DecidableEq, Repr

/-- `snd.duration` of a parselmouth sound: the length of its time span. -/
def Sound.duration (s : Sound) : ℚ := s.xmax - s.xmin

/-- One interval of an IntervalTier: `interval.min_time`, `interval.max_time`,
`interval.text` as used at app.py lines 166–172. -/
structure Interval where
  min_time : ℚ
  max_time : ℚ
  text : String
deriving DecidableEq, Repr

/-- One tier of a TextGrid.  The code reads `tier.name` (line 160) and
`tier.class_name` (line 165), and iterates the tier's intervals only when
`class_name == "IntervalTier"`; a point tier's contents are never touched,
so we only carry the interval list (empty/ignored for non-interval tiers). -/
structure Tier where
  name : String
  class_name : String
  intervals : List Interval
deriving DecidableEq, Repr

/-- A parselmouth TextGrid object: its ordered list of tiers
(`tg_obj.tiers`, line 105/155). -/
structure TextGrid where
  tiers : List Tier
deriving DecidableEq, Repr

/-- A parselmouth Pitch object as used at lines 129–133: frame times
(`pitch.xs()`) and the frequency of each frame
(`pitch.selected_array['frequency']`), where a frequency of 0 marks an
unvoiced frame. -/
structure Pitch where
  xs : List ℚ
  frequencies : List ℚ
deriving DecidableEq, Repr

/-- The sidebar inputs read on every interaction (app.py lines 64–80).
`uploaded_wav` carries the uploaded file's name when a file is present
(`None` is falsy at line 84); `uploaded_tg` is abstracted to presence. -/
structure Inputs where
  uploaded_wav : Option String
  uploaded_tg : Option Unit
  show_spectrogram : Bool
  show_pitch : Bool
  script_code : String
  run_btn : Bool

/-- The behavior, during this one request, of the external parselmouth
library: each call the program makes either returns a value or raises an
exception carrying a message.  `runScript` is
`parselmouth.praat.run_script(script_code, snd)` (line 198); the others are
`parselmouth.Sound` (line 90), `parselmouth.read` (line 98),
`snd.to_pitch()` (line 129) and `snd.to_spectrogram()` (line 142). -/
structure Engine where
  readSound : Except String Sound
  readTextGrid : Except String TextGrid
  toPitch : Except String Pitch
  toSpectrogram : Except String Unit
  runScript : String → Except String String

/-- The observable effects of one request, in the order the handler performs
them: temp-file operations, matplotlib layout/draw calls, the verbatim call
into the Praat engine, and the Streamlit output widgets. -/
inductive Effect where
  | createTemp (path : String)
  | unlink (path : String)
  | stSubheader (s : String)
  | mkFigure (height : ℕ)
  | addGridspec (rows : ℕ)
  | addSubplot (rowStart rowStop : ℕ)
  | plotWave
  | setXlim (axis : String) (lo hi : ℚ)
  | setYlim (axis : String) (lo hi : ℚ)
  | hideXticks (axis : String)
  | hideYticks (axis : String)
  | plotPitch (xs : List ℚ) (values : List (Option ℚ))
  | drawSpectrogram
  | axvline (t : ℚ)
  | drawText (x : ℚ) (s : String)
  | setXlabel (axis s : String)
  | stPyplot
  | stMarkdown (s : String)
  | engineRunScript (script : String)
  | stInfo (s : String)
  | stSuccess (s : String)
  | stError (s : String)
deriving DecidableEq, Repr

/-- Abstract path of the per-request WAV temp file (line 86–88). -/
def wavPath : String := "wav_path"

/-- Abstract path of the per-request TextGrid temp file (line 95–97). -/
def tgPath : String := "tg_path"

/-- The welcome message of the no-upload branch (line 213). -/
def welcomeMsg : String := "👋 請從左側匯入 WAV 音檔以開始。"

/-- `fig_height = 4 + (2 if show_spectrogram else 0) + (n_tiers * 1)`
(app.py line 106). -/
def fig_height (show_spectrogram : Bool) (n_tiers : ℕ) : ℕ :=
  4 + (if show_spectrogram then 2 else 0) + n_tiers * 1

/-- `gs_rows = 2 + (2 if show_spectrogram else 0) + n_tiers`
(app.py line 113). -/
def gs_rows (show_spectrogram : Bool) (n_tiers : ℕ) : ℕ :=
  2 + (if show_spectrogram then 2 else 0) + n_tiers

/-- `pitch_values[pitch_values==0] = np.nan` (app.py line 131): every frame
whose frequency is exactly 0 becomes NaN.  We model the float array after
masking as `List (Option ℚ)` with `none` standing for NaN (NaN is used purely
as a gap marker for plotting; no arithmetic is done on it). -/
def nanZero (values : List ℚ) : List (Option ℚ) :=
  values.map (fun v => if v = 0 then none else some v)

/-- The default Praat script offered in the sidebar text area, byte for byte
as the Python source builds it (app.py lines 74–78: a triple-quoted string,
hence the leading newline and the four-space indentation). -/
def default_script : String :=
  "\n    # 範例：計算總時長\n    dur = Get total duration\n    appendInfoLine: \"Total Duration: \" + fixed$(dur, 2) + \" s\"\n    "

/-- Rendering of one TextGrid tier (one iteration of the loop at app.py
lines 155–181): allocate one grid row, draw the tier name to the left of the
axis, then — only for an IntervalTier — draw a dashed boundary line at each
interval's start and the interval's text at its midpoint; finally hide the
x ticks except on the last tier, which gets the shared x label. -/
def renderTier (snd : Sound) (n_tiers : ℕ) (row i : ℕ) (tier : Tier) :
    List Effect :=
  [Effect.addSubplot row (row + 1),
   Effect.drawText (snd.xmin - snd.duration * (2 / 100)) tier.name] ++
  (if tier.class_name = "IntervalTier" then
     tier.intervals.flatMap (fun iv =>
       [Effect.axvline iv.min_time,
        Effect.drawText ((iv.min_time + iv.max_time) / 2) iv.text])
   else []) ++
  [Effect.hideYticks "tg"] ++
  (if i < n_tiers - 1 then [Effect.hideXticks "tg"]
   else [Effect.setXlabel "tg" "Time (s)"])

/-- The `for i, tier in enumerate(tg_obj.tiers)` loop (line 155), with
`current_row` starting at `row` and incremented once per tier (line 181). -/
def renderTiersGo (snd : Sound) (n_tiers : ℕ) :
    ℕ → ℕ → List Tier → List Effect
  | _, _, [] => []
  | row, i, t :: rest =>
      renderTier snd n_tiers row i t ++
        renderTiersGo snd n_tiers (row + 1) (i + 1) rest

/-- The script-result section (app.py lines 188–204), run only when the run
button was pressed: the script string is handed to the engine exactly as
entered; a raised exception is caught and shown as `st.error(f"Error: {e}")`;
otherwise a truthy (non-empty) returned string is shown with `st.info` and an
empty one with the success message. -/
def scriptSection (run_btn : Bool) (script : String)
    (runScript : String → Except String String) : List Effect :=
  if run_btn then
    [Effect.stMarkdown "---", Effect.stSubheader "📝 分析報告",
     Effect.engineRunScript script] ++
    (match runScript script with
     | Except.ok info =>
         if info ≠ "" then [Effect.stInfo info]
         else [Effect.stSuccess "腳本執行完成 (無輸出)"]
     | Except.error e => [Effect.stError ("Error: " ++ e)])
  else []

/-- The TextGrid upload step (app.py lines 93–98): when an annotation file
was uploaded, write it to a temp file and read it with `parselmouth.read`
(which may raise); otherwise `tg_obj` stays `None`. -/
def readTG (inp : Inputs) (eng : Engine) :
    List Effect × Except String (Option TextGrid) :=
  match inp.uploaded_tg with
  | none => ([], Except.ok none)
  | some _ =>
      match eng.readTextGrid with
      | Except.error m => ([Effect.createTemp tgPath], Except.error m)
      | Except.ok tg => ([Effect.createTemp tgPath], Except.ok (some tg))

/-- One request of the app (app.py lines 84–213).  Returns the effects
performed, in order, and `some msg` when an uncaught exception aborted the
request after those effects (only script execution is wrapped in
try/except; every other raise propagates, skipping the rest — including the
`os.unlink` cleanup at lines 207–209). -/
def runApp (inp : Inputs) (eng : Engine) : List Effect × Option String :=
  match inp.uploaded_wav with
  | none => ([Effect.stInfo welcomeMsg], none)
  | some wavName =>
    let pre := [Effect.createTemp wavPath]
    match eng.readSound with
    | Except.error m => (pre, some m)
    | Except.ok snd =>
      match readTG inp eng with
      | (tgEff, Except.error m) => (pre ++ tgEff, some m)
      | (tgEff, Except.ok tg_obj) =>
        let n_tiers := (tg_obj.map (fun tg => tg.tiers.length)).getD 0
        let head := pre ++ tgEff ++
          [Effect.stSubheader ("波形與標註檢視: " ++ wavName),
           Effect.mkFigure (fig_height inp.show_spectrogram n_tiers),
           Effect.addGridspec (gs_rows inp.show_spectrogram n_tiers),
           Effect.addSubplot 0 2, Effect.plotWave,
           Effect.setXlim "wave" snd.xmin snd.xmax,
           Effect.hideXticks "wave"]
        match (if inp.show_pitch then eng.toPitch.map some
               else Except.ok none) with
        | Except.error m => (head, some m)
        | Except.ok pitchOpt =>
          let pitchEff := match pitchOpt with
            | none => []
            | some p =>
                [Effect.plotPitch p.xs (nanZero p.frequencies),
                 Effect.setYlim "pitch" 0 500]
          match (if inp.show_spectrogram then eng.toSpectrogram
                 else Except.ok ()) with
          | Except.error m => (head ++ pitchEff, some m)
          | Except.ok _ =>
            let specEff := if inp.show_spectrogram then
                [Effect.addSubplot 2 4, Effect.drawSpectrogram,
                 Effect.setYlim "spec" 0 5000, Effect.hideXticks "spec"]
              else []
            let tierStart := 2 + (if inp.show_spectrogram then 2 else 0)
            let tierEff := match tg_obj with
              | none => []
              | some tg =>
                  renderTiersGo snd tg.tiers.length tierStart 0 tg.tiers
            let figAll := head ++ pitchEff ++ specEff ++ tierEff ++
              [Effect.stPyplot]
            let scriptEff :=
              scriptSection inp.run_btn inp.script_code eng.runScript
            let cleanEff := [Effect.unlink wavPath] ++
              (if tg_obj.isSome then [Effect.unlink tgPath] else [])
            (figAll ++ scriptEff ++ cleanEff, none)

/-- The row count passed to `fig.add_gridspec` in a run, when the run got
that far: the first `addGridspec` effect. -/
def firstGridRows : List Effect → Option ℕ
  | [] => none
  | Effect.addGridspec r :: _ => some r
  | _ :: es => firstGridRows es

/-- The figure height passed to `plt.figure(figsize=(10, fig_height))` in a
run, when the run got that far: the first `mkFigure` effect. -/
def firstFigHeight : List Effect → Option ℕ
  | [] => none
  | Effect.mkFigure h :: _ => some h
  | _ :: es => firstFigHeight es

/-- The starting rows of the single-row subplots of a run, in order.  The
waveform occupies rows 0–2 and the spectrogram rows 2–4, both two-row spans;
every single-row subplot is a TextGrid tier row (line 156). -/
def singleRowSubplots : List Effect → List ℕ
  | [] => []
  | e :: es =>
      match e with
      | Effect.addSubplot a b =>
          if b = a + 1 then a :: singleRowSubplots es
          else singleRowSubplots es
      | _ => singleRowSubplots es

/-!
## A model of the external Praat scripting engine

The Praat interpreter lives inside the external parselmouth library; it is
not code of this repository, so we model just enough of it, from the spec,
to run the bundled default script.
-/

/-- The decimal digits of a natural number, most significant first. -/
def natDigits (n : ℕ) : List ℕ :=
  if _h : n < 10 then [n] else natDigits (n / 10) ++ [n % 10]
decreasing_by
  exact Nat.div_lt_self (by omega) (by omega)

/-- The number a (most-significant-first) digit list denotes. -/
def digitsVal (ds : List ℕ) : ℕ :=
  ds.foldl (fun a d => a * 10 + d) 0

/-- The character for one decimal digit. -/
def digitChar (d : ℕ) : Char :=
  Char.ofNat (48 + d % 10)

/-- The digit a character denotes, when it is a decimal digit. -/
def charDigit (c : Char) : Option ℕ :=
  if '0' ≤ c ∧ c ≤ '9' then some (c.toNat - 48) else none

/-- Decimal rendering of a natural number. -/
def natString (n : ℕ) : String :=
  String.mk ((natDigits n).map digitChar)

/-- The number a non-empty list of decimal-digit characters denotes. -/
def charsNat (cs : List Char) : Option ℕ :=
  match cs.mapM charDigit with
  | none => none
  | some [] => none
  | some ds => some (digitsVal ds)

/-- Split a character list at its first `'.'`. -/
def breakDot : List Char → Option (List Char × List Char)
  | [] => none
  | c :: cs =>
      if c = '.' then some ([], cs)
      else match breakDot cs with
        | none => none
        | some (a, b) => some (c :: a, b)

/-- Modelled from the spec: Praat's `fixed$(x, 2)` — the external engine's
fixed-point formatting, absent from this repository — renders `x` with
exactly two decimal places, rounding to the nearest multiple of 1/100
(spec §8: "a numeric value matching the audio's duration to two decimal
places").  Defined here for non-negative `x`, the only use. -/
def fixed2 (x : ℚ) : String :=
  let c : ℕ := (round (x * 100)).toNat
  natString (c / 100) ++ "." ++
    (if c % 100 < 10 then "0" else "") ++ natString (c % 100)

/-- The rational a fixed-two-decimals string such as "3.14" denotes: an
integer part, a dot, and exactly two fractional digits. -/
def fixed2Val (s : String) : Option ℚ :=
  match breakDot s.data with
  | none => none
  | some (a, b) =>
      match charsNat a, charsNat b with
      | some i, some f =>
          if b.length = 2 then some ((i : ℚ) + (f : ℚ) / 100) else none
      | _, _ => none

/-- An expression of the one script line that produces output: a
concatenation of string literals and `fixed$(var, digits)` calls. -/
inductive PExpr where
  | lit (s : String)
  | fixedVar (v : String) (digits : ℕ)
deriving DecidableEq, Repr

/-- The statements our engine model understands: `v = Get total duration`
and `appendInfoLine: e1 + e2 + ...`. -/
inductive PStmt where
  | assignDur (v : String)
  | appendLine (es : List PExpr)
deriving DecidableEq, Repr

/-- Split a character list at every occurrence of the separator char. -/
def splitOnChar (sep : Char) : List Char → List (List Char)
  | [] => [[]]
  | c :: cs =>
      if c = sep then [] :: splitOnChar sep cs
      else match splitOnChar sep cs with
        | [] => [[c]]
        | l :: ls => (c :: l) :: ls

/-- Drop leading whitespace characters. -/
def dropWS : List Char → List Char
  | [] => []
  | c :: cs => if c.isWhitespace then dropWS cs else c :: cs

/-- Trim whitespace from both ends of a character list. -/
def trimChars (cs : List Char) : List Char :=
  (dropWS ((dropWS cs).reverse)).reverse

/-- Split a character list at every ` + ` separator. -/
def splitOnPlus : List Char → List (List Char)
  | ' ' :: '+' :: ' ' :: cs => [] :: splitOnPlus cs
  | c :: cs =>
      (match splitOnPlus cs with
       | [] => [[c]]
       | l :: ls => (c :: l) :: ls)
  | [] => [[]]

/-- Split a character list at every ` = ` separator. -/
def splitOnEq : List Char → List (List Char)
  | ' ' :: '=' :: ' ' :: cs => [] :: splitOnEq cs
  | c :: cs =>
      (match splitOnEq cs with
       | [] => [[c]]
       | l :: ls => (c :: l) :: ls)
  | [] => [[]]

/-- Split a character list at every `, ` separator. -/
def splitOnComma : List Char → List (List Char)
  | ',' :: ' ' :: cs => [] :: splitOnComma cs
  | c :: cs =>
      (match splitOnComma cs with
       | [] => [[c]]
       | l :: ls => (c :: l) :: ls)
  | [] => [[]]

/-- Parse one `+`-separated argument of `appendInfoLine`: a double-quoted
string literal or a `fixed$(var, digits)` call. -/
def praatArg (t : List Char) : Option PExpr :=
  match t with
  | '"' :: rest =>
      (match rest.reverse with
       | '"' :: mid => some (PExpr.lit (String.mk mid.reverse))
       | _ => none)
  | _ =>
      if ("fixed$(".data).isPrefixOf t ∧ (")".data).isPrefixOf t.reverse then
        match splitOnComma ((t.drop 7).reverse.drop 1).reverse with
        | [v, nstr] =>
            (match charsNat nstr with
             | some n => some (PExpr.fixedVar (String.mk v) n)
             | none => none)
        | _ => none
      else none

/-- Parse one non-blank non-comment script line. -/
def praatStmt (t : List Char) : Option PStmt :=
  if ("appendInfoLine: ".data).isPrefixOf t then
    match (splitOnPlus (t.drop 16)).mapM praatArg with
    | some es => some (PStmt.appendLine es)
    | none => none
  else
    match splitOnEq t with
    | [v, cmd] =>
        if cmd = ("Get total duration").data then
          some (PStmt.assignDur (String.mk v))
        else none
    | _ => none

/-- Parse a script, skipping blank lines and `#` comment lines (after
trimming surrounding whitespace, as the Praat interpreter does). -/
def praatProgram : List (List Char) → Option (List PStmt)
  | [] => some []
  | l :: ls =>
      let t := trimChars l
      if t = [] ∨ ("#".data).isPrefixOf t then praatProgram ls
      else
        match praatStmt t, praatProgram ls with
        | some s, some rest => some (s :: rest)
        | _, _ => none

/-- Evaluate one `appendInfoLine` argument under a variable environment. -/
def praatEval (env : List (String × ℚ)) : PExpr → Option String
  | PExpr.lit s => some s
  | PExpr.fixedVar v d =>
      match env.lookup v, d with
      | some x, 2 => some (fixed2 x)
      | _, _ => none

/-- Execute a parsed script against a sound of total duration `dur`,
returning the appended info lines. -/
def praatExec (dur : ℚ) : List (String × ℚ) → List PStmt →
    Option (List String)
  | _, [] => some []
  | env, PStmt.assignDur v :: rest => praatExec dur ((v, dur) :: env) rest
  | env, PStmt.appendLine es :: rest =>
      match es.mapM (praatEval env), praatExec dur env rest with
      | some parts, some lines => some (String.join parts :: lines)
      | _, _ => none

/-- Modelled from the spec: the external Praat scripting engine
(`parselmouth.praat.run_script`) is not part of this repository; this runs a
script against a sound of total duration `dur` and returns its textual
output lines, covering exactly the constructs the bundled default script
uses (comments, `Get total duration`, `appendInfoLine` with string
concatenation and `fixed$`). -/
def praatRun (script : String) (dur : ℚ) : Option (List String) :=
  match praatProgram (splitOnChar '\n' script.data) with
  | none => none
  | some prog => praatExec dur [] prog

/-!
## The effect trace of a request in which the external library raises nothing
-/

/-- The upload, analysis and drawing effects of one request in which every
external-library call succeeds: everything up to and including `st.pyplot`,
before the script-result section.  `tgOpt` is the TextGrid object when an
annotation file was uploaded, `p` the pitch object (used only when the pitch
toggle is on). -/
def figureEffects (inp : Inputs) (wavName : String) (snd : Sound)
    (tgOpt : Option TextGrid) (p : Pitch) : List Effect :=
  [Effect.createTemp wavPath] ++
  (if tgOpt.isSome then [Effect.createTemp tgPath] else []) ++
  [Effect.stSubheader ("波形與標註檢視: " ++ wavName),
   Effect.mkFigure
     (fig_height inp.show_spectrogram
       ((tgOpt.map (fun tg => tg.tiers.length)).getD 0)),
   Effect.addGridspec
     (gs_rows inp.show_spectrogram
       ((tgOpt.map (fun tg => tg.tiers.length)).getD 0)),
   Effect.addSubplot 0 2, Effect.plotWave,
   Effect.setXlim "wave" snd.xmin snd.xmax,
   Effect.hideXticks "wave"] ++
  (if inp.show_pitch then
     [Effect.plotPitch p.xs (nanZero p.frequencies),
      Effect.setYlim "pitch" 0 500]
   else []) ++
  (if inp.show_spectrogram then
     [Effect.addSubplot 2 4, Effect.drawSpectrogram,
      Effect.setYlim "spec" 0 5000, Effect.hideXticks "spec"]
   else []) ++
  (match tgOpt with
   | none => []
   | some tg =>
       renderTiersGo snd tg.tiers.length
         (2 + (if inp.show_spectrogram then 2 else 0)) 0 tg.tiers) ++
  [Effect.stPyplot]

/-- The temp-file cleanup at the end of one request (app.py lines 206–209). -/
def cleanupEffects (tgOpt : Option TextGrid) : List Effect :=
  [Effect.unlink wavPath] ++
  (if tgOpt.isSome then [Effect.unlink tgPath] else [])

/-- The full effect list of one request in which every external-library call
succeeds: the figure, then the script-result section, then cleanup. -/
def successEffects (inp : Inputs) (wavName : String) (snd : Sound)
    (tgOpt : Option TextGrid) (p : Pitch)
    (runScript : String → Except String String) : List Effect :=
  figureEffects inp wavName snd tgOpt p ++
  scriptSection inp.run_btn inp.script_code runScript ++
  cleanupEffects tgOpt

/-- A concrete three-second sound. -/
def sampleSound : Sound := { xmin := 0, xmax := 3 }

/-- A concrete interval tier with two labelled intervals. -/
def sampleTier : Tier :=
  { name := "words", class_name := "IntervalTier",
    intervals := [{ min_time := 0, max_time := 3 / 2, text := "hi" },
                  { min_time := 3 / 2, max_time := 3, text := "yo" }] }

/-- A concrete point tier (its class is not "IntervalTier"). -/
def samplePointTier : Tier :=
  { name := "points", class_name := "TextTier", intervals := [] }

/-- A concrete TextGrid with an interval tier and a point tier. -/
def sampleTG : TextGrid := { tiers := [sampleTier, samplePointTier] }

/-- A concrete pitch track with one unvoiced (0 Hz) and one voiced frame. -/
def samplePitch : Pitch := { xs := [1 / 100, 2 / 100], frequencies := [0, 220] }

/-- A concrete external-library behavior in which every call succeeds. -/
def sampleEngine : Engine :=
  { readSound := Except.ok sampleSound, readTextGrid := Except.ok sampleTG,
    toPitch := Except.ok samplePitch, toSpectrogram := Except.ok (),
    runScript := fun _ => Except.ok "Total Duration: 3.00 s" }

/-- `sampleEngine`, except that running the user's script raises. -/
def errScriptEngine : Engine :=
  { sampleEngine with
    runScript := fun _ => Except.error "Praat: command not available" }

/-- `sampleEngine`, except that opening the WAV raises. -/
def badWavEngine : Engine :=
  { sampleEngine with readSound := Except.error "Not a WAV file" }

/-- Concrete sidebar inputs: WAV and TextGrid uploaded, both toggles on,
default script, run button pressed. -/
def sampleInputs : Inputs :=
  { uploaded_wav := some "demo.wav", uploaded_tg := some (),
    show_spectrogram := true, show_pitch := true,
    script_code := default_script, run_btn := true }

/-- `sampleInputs` with no WAV uploaded. -/
def noWavInputs : Inputs := { sampleInputs with uploaded_wav := none }

/-- When the WAV upload is present and every external call succeeds, the
request performs exactly `successEffects` and raises nothing. -/
theorem runApp_success (inp : Inputs) (eng : Engine) (w : String)
    (snd : Sound) (tg : TextGrid) (p : Pitch)
    (hw : inp.uploaded_wav = some w)
    (hs : eng.readSound = Except.ok snd)
    (ht : eng.readTextGrid = Except.ok tg)
    (hp : eng.toPitch = Except.ok p)
    (hsp : eng.toSpectrogram = Except.ok ()) :
    runApp inp eng =
      (successEffects inp w snd (inp.uploaded_tg.map (fun _ => tg)) p
        eng.runScript, none) := by
  obtain ⟨wav, utg, ss, sp, code, btn⟩ := inp
  simp only [Inputs.uploaded_wav] at hw
  subst hw
  cases utg <;> cases sp <;> cases ss <;>
    simp [runApp, readTG, successEffects, figureEffects, cleanupEffects,
      ht, hs, hp, hsp, Except.map]

/-!
## Decimal rendering: the printed digits denote the rounded number
-/

theorem digitsVal_append_digit (ds : List ℕ) (d : ℕ) :
    digitsVal (ds ++ [d]) = digitsVal ds * 10 + d := by
  simp [digitsVal, List.foldl_append]

theorem digitsVal_natDigits (n : ℕ) : digitsVal (natDigits n) = n := by
  induction n using Nat.strong_induction_on with
  | _ n ih =>
    rw [natDigits]
    split
    · simp [digitsVal]
    · rw [digitsVal_append_digit,
        ih (n / 10) (Nat.div_lt_self (by omega) (by omega))]
      omega

theorem natDigits_lt_ten (n : ℕ) : ∀ d ∈ natDigits n, d < 10 := by
  induction n using Nat.strong_induction_on with
  | _ n ih =>
    rw [natDigits]
    split
    · intro d hd
      simp only [List.mem_singleton] at hd
      omega
    · intro d hd
      rw [List.mem_append, List.mem_singleton] at hd
      rcases hd with h | h
      · exact ih (n / 10) (Nat.div_lt_self (by omega) (by omega)) d h
      · omega

theorem natDigits_ne_nil (n : ℕ) : natDigits n ≠ [] := by
  rw [natDigits]
  split <;> simp

theorem charDigit_digitChar (d : ℕ) (h : d < 10) :
    charDigit (digitChar d) = some d := by
  interval_cases d <;> rfl

theorem digitChar_ne_dot (d : ℕ) : digitChar d ≠ '.' := by
  unfold digitChar
  have h : d % 10 < 10 := Nat.mod_lt _ (by omega)
  set e := d % 10 with he
  interval_cases e <;> decide

theorem mapM_charDigit_digitChar (ds : List ℕ) (h : ∀ d ∈ ds, d < 10) :
    (ds.map digitChar).mapM charDigit = some ds := by
  induction ds with
  | nil => rfl
  | cons d ds ih =>
    rw [List.map_cons, List.mapM_cons,
      charDigit_digitChar d (h d (List.mem_cons_self d ds)),
      ih (fun x hx => h x (List.mem_cons_of_mem d hx))]
    rfl

theorem charsNat_digits (n : ℕ) :
    charsNat ((natDigits n).map digitChar) = some n := by
  unfold charsNat
  rw [mapM_charDigit_digitChar (natDigits n) (natDigits_lt_ten n)]
  rcases h : natDigits n with _ | ⟨a, l⟩
  · exact absurd h (natDigits_ne_nil n)
  · have := digitsVal_natDigits n
    rw [h] at this
    simp [this]

theorem breakDot_append (a b : List Char) (h : ('.' : Char) ∉ a) :
    breakDot (a ++ '.' :: b) = some (a, b) := by
  induction a with
  | nil => simp [breakDot]
  | cons c cs ih =>
    have hc : ¬ c = '.' := by
      intro hx
      exact h (hx ▸ List.mem_cons_self c cs)
    rw [List.cons_append]
    unfold breakDot
    rw [if_neg hc, ih (fun hm => h (List.mem_cons_of_mem c hm))]

theorem charsNat_frac (r : ℕ) (h : r < 100) :
    charsNat ((if r < 10 then ['0'] else []) ++
      (natDigits r).map digitChar) = some r := by
  by_cases h10 : r < 10
  · have hd : natDigits r = [r] := by
      rw [natDigits]
      rw [dif_pos h10]
    rw [if_pos h10, hd]
    unfold charsNat
    have h0 : charDigit '0' = some 0 := rfl
    rw [show (['0'] ++ [r].map digitChar).mapM charDigit = some [0, r] by
      simp [List.mapM, List.mapM.loop, h0, charDigit_digitChar r (by omega)]]
    simp [digitsVal]
  · rw [if_neg h10, List.nil_append]
    exact charsNat_digits r

theorem frac_length (r : ℕ) (h : r < 100) :
    ((if r < 10 then ['0'] else []) ++
      (natDigits r).map digitChar).length = 2 := by
  by_cases h10 : r < 10
  · have hd : natDigits r = [r] := by
      rw [natDigits]
      rw [dif_pos h10]
    rw [if_pos h10, hd]
    rfl
  · have hd : natDigits r = [r / 10, r % 10] := by
      rw [natDigits]
      rw [dif_neg h10]
      rw [natDigits]
      rw [dif_pos (by omega : r / 10 < 10)]
      rfl
    rw [if_neg h10, hd]
    rfl

theorem fixed2_data (x : ℚ) :
    (fixed2 x).data =
      (natDigits ((round (x * 100)).toNat / 100)).map digitChar ++ '.' ::
        ((if (round (x * 100)).toNat % 100 < 10 then ['0'] else []) ++
          (natDigits ((round (x * 100)).toNat % 100)).map digitChar) := by
  have hdot : (".").data = ['.'] := rfl
  have hzero : ("0").data = ['0'] := rfl
  simp [fixed2, natString, String.data_append, hdot, hzero,
    apply_ite String.data]

theorem fixed2Val_fixed2 (x : ℚ) (hx : 0 ≤ x) :
    fixed2Val (fixed2 x) = some ((round (x * 100) : ℚ) / 100) := by
  have hcr : (((round (x * 100)).toNat : ℤ)) = round (x * 100) := by
    refine Int.toNat_of_nonneg ?_
    rw [round_eq]
    refine Int.floor_nonneg.mpr (by linarith)
  have h1 : (round (x * 100)).toNat % 100 < 100 := Nat.mod_lt _ (by omega)
  unfold fixed2Val
  rw [fixed2_data x,
    breakDot_append _ _ (by
      intro hm
      rcases List.mem_map.mp hm with ⟨d, _, hd⟩
      exact digitChar_ne_dot d hd)]
  simp only [charsNat_digits, charsNat_frac _ h1, frac_length _ h1,
    if_true, if_pos]
  have hn : (round (x * 100)).toNat / 100 * 100 +
      (round (x * 100)).toNat % 100 = (round (x * 100)).toNat := by omega
  have hq : (((round (x * 100)).toNat / 100 : ℕ) : ℚ) +
      (((round (x * 100)).toNat % 100 : ℕ) : ℚ) / 100 =
      (((round (x * 100)).toNat : ℕ) : ℚ) / 100 := by
    field_simp
    exact_mod_cast hn
  rw [hq]
  rw [show (((round (x * 100)).toNat : ℕ) : ℚ) = ((round (x * 100) : ℤ) : ℚ) by
    exact_mod_cast hcr]

theorem fixed2_round_close (x : ℚ) :
    |x - (round (x * 100) : ℚ) / 100| ≤ 1 / 200 := by
  have h := abs_sub_round (x * 100)
  have hx : x - (round (x * 100) : ℚ) / 100 =
      (x * 100 - (round (x * 100) : ℚ)) / 100 := by ring
  rw [hx, abs_div, abs_of_nonneg (by norm_num : (0:ℚ) ≤ 100)]
  linarith

/-- The default script parses to exactly two statements: bind the total
duration, then append one info line. -/
theorem praatProgram_default :
    praatProgram (splitOnChar '\n' default_script.data) =
      some [PStmt.assignDur "dur",
        PStmt.appendLine [PExpr.lit "Total Duration: ",
          PExpr.fixedVar "dur" 2, PExpr.lit " s"]] := by
  rfl

/-- Running the default script against a sound of duration `d` outputs the
single line built from the duration formatted with two decimals. -/
theorem praatRun_default (d : ℚ) :
    praatRun default_script d =
      some ["Total Duration: " ++ fixed2 d ++ " s"] := by
  have hj : String.join ["Total Duration: ", fixed2 d, " s"] =
      "Total Duration: " ++ fixed2 d ++ " s" := by
    apply String.ext
    simp [String.join, String.data_append]
  unfold praatRun
  rw [praatProgram_default]
  simp [praatExec, praatEval, List.lookup, List.mapM, List.mapM.loop, hj]

/-- `singleRowSubplots` distributes over list append. -/
theorem singleRowSubplots_append (a b : List Effect) :
    singleRowSubplots (a ++ b) =
      singleRowSubplots a ++ singleRowSubplots b := by
  induction a with
  | nil => rfl
  | cons e es ih =>
    cases e <;> simp [singleRowSubplots, ih]
    all_goals split <;> simp

/-- The boundary lines and interval labels of an interval tier allocate no
subplot rows. -/
theorem singleRowSubplots_intervalEffects (ivs : List Interval) :
    singleRowSubplots (ivs.flatMap (fun iv =>
      [Effect.axvline iv.min_time,
       Effect.drawText ((iv.min_time + iv.max_time) / 2) iv.text])) = [] := by
  induction ivs with
  | nil => rfl
  | cons iv rest ih =>
    show singleRowSubplots (Effect.axvline iv.min_time ::
      Effect.drawText ((iv.min_time + iv.max_time) / 2) iv.text ::
      rest.flatMap _) = []
    simp [singleRowSubplots, ih]

/-- One iteration of the tier loop allocates exactly one single-row grid
row, the current one. -/
theorem singleRowSubplots_renderTier (snd : Sound) (n row i : ℕ)
    (t : Tier) : singleRowSubplots (renderTier snd n row i t) = [row] := by
  unfold renderTier
  split <;> split <;>
    simp [singleRowSubplots, singleRowSubplots_append,
      singleRowSubplots_intervalEffects]

/-- Each iteration of the tier loop allocates exactly one (single-row) grid
row, and consecutive iterations use consecutive rows. -/
theorem singleRowSubplots_renderTiersGo (snd : Sound) (n : ℕ)
    (ts : List Tier) : ∀ row i,
    singleRowSubplots (renderTiersGo snd n row i ts) =
      (List.range ts.length).map (fun j => row + j) := by
  induction ts with
  | nil => intro row i; rfl
  | cons t rest ih =>
    intro row i
    rw [renderTiersGo, singleRowSubplots_append, ih (row + 1) (i + 1),
      singleRowSubplots_renderTier]
    rw [List.length_cons, List.range_succ_eq_map, List.map_cons,
      List.map_map, List.singleton_append]
    refine congrArg₂ List.cons (by omega) ?_
    refine List.map_congr_left ?_
    intro j hj
    simp only [Function.comp_apply]
    omega

/-- The script-result section creates no temporary file, whatever the
engine returns. -/
theorem createTemp_notMem_scriptSection (b : Bool) (c : String)
    (f : String → Except String String) (q : String) :
    Effect.createTemp q ∉ scriptSection b c f := by
  intro h
  unfold scriptSection at h
  cases b with
  | false => simp at h
  | true =>
    cases hfc : f c with
    | error e =>
        rw [hfc] at h
        simp at h
    | ok info =>
        rw [hfc] at h
        by_cases hi : info ≠ "" <;> simp [hi] at h

/-- The script-result section allocates no subplot rows, whatever the
engine returns. -/
theorem singleRowSubplots_scriptSection (b : Bool) (c : String)
    (f : String → Except String String) :
    singleRowSubplots (scriptSection b c f) = [] := by
  unfold scriptSection
  cases b with
  | false => rfl
  | true =>
    cases hfc : f c with
    | error e => simp [singleRowSubplots]
    | ok info =>
        by_cases hi : info ≠ "" <;> simp [hi, singleRowSubplots]

/-- The temp-file cleanup allocates no subplot rows. -/
theorem singleRowSubplots_cleanupEffects (tgOpt : Option TextGrid) :
    singleRowSubplots (cleanupEffects tgOpt) = [] := by
  unfold cleanupEffects
  cases tgOpt <;> rfl

/-- The tier loop creates no temporary file. -/
theorem createTemp_notMem_renderTiersGo (snd : Sound) (n : ℕ) (q : String) :
    ∀ row i ts, Effect.createTemp q ∉ renderTiersGo snd n row i ts := by
  intro row i ts
  induction ts generalizing row i with
  | nil => simp [renderTiersGo]
  | cons t rest ih =>
    intro h
    rw [renderTiersGo, List.mem_append] at h
    rcases h with h | h
    · unfold renderTier at h
      split at h <;> split at h <;>
        simp [List.mem_append, List.mem_flatMap] at h
    · exact ih (row + 1) (i + 1) h

/-- Every temporary file created during a fully successful request is the
WAV temp file or — when an annotation file was uploaded — the TextGrid
temp file. -/
theorem createTemp_mem_figureEffects (inp : Inputs) (w : String)
    (snd : Sound) (tgOpt : Option TextGrid) (p : Pitch) (q : String)
    (h : Effect.createTemp q ∈ figureEffects inp w snd tgOpt p) :
    q = wavPath ∨ (q = tgPath ∧ tgOpt.isSome = true) := by
  unfold figureEffects at h
  rcases tgOpt with _ | tg <;>
    cases hss : inp.show_spectrogram <;>
    cases hsp : inp.show_pitch <;>
    simp [hss, hsp, List.mem_append,
      createTemp_notMem_renderTiersGo] at h <;>
    tauto

/-!
## The claims
-/

/-- C1: for every script whose execution by the external engine raises an
exception, the handler catches it: the request does not crash (no uncaught
exception), an error message containing the exception text is shown, and
everything outside the script-result section — the whole figure and the
cleanup — is independent of the script result. -/
theorem script_error_caught_and_page_intact (inp : Inputs) (eng : Engine)
    (w : String) (snd : Sound) (tg : TextGrid) (p : Pitch) (msg : String)
    (hw : inp.uploaded_wav = some w)
    (hs : eng.readSound = Except.ok snd)
    (ht : eng.readTextGrid = Except.ok tg)
    (hp : eng.toPitch = Except.ok p)
    (hsp : eng.toSpectrogram = Except.ok ())
    (hb : inp.run_btn = true)
    (he : eng.runScript inp.script_code = Except.error msg) :
    (runApp inp eng).snd = none ∧
    Effect.stError ("Error: " ++ msg) ∈ (runApp inp eng).fst ∧
    (∀ g : String → Except String String,
      runApp inp { eng with runScript := g } =
        (figureEffects inp w snd (inp.uploaded_tg.map (fun _ => tg)) p ++
          scriptSection inp.run_btn inp.script_code g ++
          cleanupEffects (inp.uploaded_tg.map (fun _ => tg)), none)) ∧
    Effect.stPyplot ∈
      figureEffects inp w snd (inp.uploaded_tg.map (fun _ => tg)) p ∧
    Effect.unlink wavPath ∈
      cleanupEffects (inp.uploaded_tg.map (fun _ => tg)) := by
  have hmain := runApp_success inp eng w snd tg p hw hs ht hp hsp
  refine ⟨?_, ?_, ?_, ?_, ?_⟩
  · rw [hmain]
  · rw [hmain]
    simp [successEffects, scriptSection, hb, he, List.mem_append]
  · intro g
    exact runApp_success inp { eng with runScript := g } w snd tg p
      hw hs ht hp hsp
  · simp [figureEffects, List.mem_append]
  · simp [cleanupEffects]

/-- C1 witness: a concrete request in which the engine raises while running
the script. -/
theorem script_error_caught_witness :
    (runApp sampleInputs errScriptEngine).snd = none ∧
    Effect.stError ("Error: " ++ "Praat: command not available") ∈
      (runApp sampleInputs errScriptEngine).fst := by
  have h := script_error_caught_and_page_intact sampleInputs errScriptEngine
    "demo.wav" sampleSound sampleTG samplePitch
    "Praat: command not available" rfl rfl rfl rfl rfl rfl rfl
  exact ⟨h.1, h.2.1⟩

/-- C2 counterexample: when opening the uploaded WAV raises, the exception
propagates and the request aborts before the cleanup code runs: the WAV temp
file was created in this request but never deleted. -/
theorem wav_temp_not_deleted_on_read_error :
    Effect.createTemp wavPath ∈ (runApp sampleInputs badWavEngine).fst ∧
    Effect.unlink wavPath ∉ (runApp sampleInputs badWavEngine).fst ∧
    (runApp sampleInputs badWavEngine).snd = some "Not a WAV file" := by
  decide

/-- C2 amended: when no external-library call raises during analysis or
rendering (script-execution failures are caught and are harmless), every
temporary file created during the request is deleted before it ends. -/
theorem temps_deleted_when_library_raises_nothing (inp : Inputs)
    (eng : Engine) (w : String) (snd : Sound) (tg : TextGrid) (p : Pitch)
    (hw : inp.uploaded_wav = some w)
    (hs : eng.readSound = Except.ok snd)
    (ht : eng.readTextGrid = Except.ok tg)
    (hp : eng.toPitch = Except.ok p)
    (hsp : eng.toSpectrogram = Except.ok ()) :
    (runApp inp eng).snd = none ∧
    Effect.createTemp wavPath ∈ (runApp inp eng).fst ∧
    (∀ q : String, Effect.createTemp q ∈ (runApp inp eng).fst →
      Effect.unlink q ∈ (runApp inp eng).fst) := by
  have hmain := runApp_success inp eng w snd tg p hw hs ht hp hsp
  rw [hmain]
  refine ⟨rfl, ?_, ?_⟩
  · simp [successEffects, figureEffects, List.mem_append]
  · intro q hq
    rw [successEffects, List.mem_append, List.mem_append] at hq
    rcases hq with (hq | hq) | hq
    · rcases createTemp_mem_figureEffects inp w snd _ p q hq with
        rfl | ⟨rfl, hsome⟩
      · simp [successEffects, cleanupEffects, List.mem_append]
      · simp [successEffects, cleanupEffects, hsome, List.mem_append]
    · exact absurd hq (createTemp_notMem_scriptSection _ _ _ q)
    · unfold cleanupEffects at hq
      cases hyes : (inp.uploaded_tg.map (fun _ => tg)).isSome <;>
        simp [hyes] at hq

/-- C2 witness for the amended claim: a concrete fully successful request
deletes each temp file it created. -/
theorem temps_deleted_witness :
    (runApp sampleInputs sampleEngine).snd = none ∧
    Effect.createTemp wavPath ∈ (runApp sampleInputs sampleEngine).fst ∧
    (∀ q : String,
      Effect.createTemp q ∈ (runApp sampleInputs sampleEngine).fst →
      Effect.unlink q ∈ (runApp sampleInputs sampleEngine).fst) :=
  temps_deleted_when_library_raises_nothing sampleInputs sampleEngine
    "demo.wav" sampleSound sampleTG samplePitch rfl rfl rfl rfl rfl

/-- C3: with identical inputs otherwise, the run with the spectrogram
toggle on passes exactly two more rows to the gridspec, and a figure height
exactly two units larger, than the run with it off. -/
theorem spectrogram_toggle_adds_two_rows (inp : Inputs) (eng : Engine)
    (w : String) (snd : Sound) (tg : TextGrid) (p : Pitch)
    (hw : inp.uploaded_wav = some w)
    (hs : eng.readSound = Except.ok snd)
    (ht : eng.readTextGrid = Except.ok tg)
    (hp : eng.toPitch = Except.ok p)
    (hsp : eng.toSpectrogram = Except.ok ()) :
    ∃ r h,
      firstGridRows
        (runApp { inp with show_spectrogram := false } eng).fst = some r ∧
      firstGridRows
        (runApp { inp with show_spectrogram := true } eng).fst =
          some (r + 2) ∧
      firstFigHeight
        (runApp { inp with show_spectrogram := false } eng).fst = some h ∧
      firstFigHeight
        (runApp { inp with show_spectrogram := true } eng).fst =
          some (h + 2) := by
  obtain ⟨wav, utg, ss, sp, code, btn⟩ := inp
  simp only [Inputs.uploaded_wav] at hw
  subst hw
  have h0 := runApp_success ⟨some w, utg, false, sp, code, btn⟩ eng
    w snd tg p rfl hs ht hp hsp
  have h1 := runApp_success ⟨some w, utg, true, sp, code, btn⟩ eng
    w snd tg p rfl hs ht hp hsp
  rw [h0, h1]
  cases utg with
  | none =>
    refine ⟨2, 4, ?_, ?_, ?_, ?_⟩ <;>
      simp [successEffects, figureEffects, firstGridRows, firstFigHeight,
        gs_rows, fig_height]
  | some u =>
    refine ⟨2 + tg.tiers.length, 4 + tg.tiers.length, ?_, ?_, ?_, ?_⟩ <;>
      simp [successEffects, figureEffects, firstGridRows, firstFigHeight,
        gs_rows, fig_height] <;> omega

/-- C3 witness: the two-row difference at a concrete request. -/
theorem spectrogram_toggle_witness :
    ∃ r h,
      firstGridRows
        (runApp { sampleInputs with show_spectrogram := false }
          sampleEngine).fst = some r ∧
      firstGridRows
        (runApp { sampleInputs with show_spectrogram := true }
          sampleEngine).fst = some (r + 2) ∧
      firstFigHeight
        (runApp { sampleInputs with show_spectrogram := false }
          sampleEngine).fst = some h ∧
      firstFigHeight
        (runApp { sampleInputs with show_spectrogram := true }
          sampleEngine).fst = some (h + 2) :=
  spectrogram_toggle_adds_two_rows sampleInputs sampleEngine
    "demo.wav" sampleSound sampleTG samplePitch rfl rfl rfl rfl rfl

/-- C4: relative to the same request with no annotation file, an uploaded
annotation set with N tiers adds exactly N rows to the gridspec, and the
tier rows are single-row subplots occupying the N consecutive rows right
after the waveform and the optional spectrogram, one per tier in order. -/
theorem tiers_add_one_row_each (inp : Inputs) (eng : Engine)
    (w : String) (snd : Sound) (tg : TextGrid) (p : Pitch)
    (hw : inp.uploaded_wav = some w)
    (hs : eng.readSound = Except.ok snd)
    (ht : eng.readTextGrid = Except.ok tg)
    (hp : eng.toPitch = Except.ok p)
    (hsp : eng.toSpectrogram = Except.ok ())
    (htg : inp.uploaded_tg = some ()) :
    ∃ r,
      firstGridRows
        (runApp { inp with uploaded_tg := none } eng).fst = some r ∧
      firstGridRows (runApp inp eng).fst = some (r + tg.tiers.length) ∧
      singleRowSubplots (runApp inp eng).fst =
        (List.range tg.tiers.length).map
          (fun j => (2 + (if inp.show_spectrogram then 2 else 0)) + j) ∧
      singleRowSubplots
        (runApp { inp with uploaded_tg := none } eng).fst = [] := by
  obtain ⟨wav, utg, ss, sp, code, btn⟩ := inp
  simp only [Inputs.uploaded_wav] at hw
  simp only [Inputs.uploaded_tg] at htg
  subst hw
  subst htg
  have h0 := runApp_success ⟨some w, none, ss, sp, code, btn⟩ eng
    w snd tg p rfl hs ht hp hsp
  have h1 := runApp_success ⟨some w, some (), ss, sp, code, btn⟩ eng
    w snd tg p rfl hs ht hp hsp
  rw [h0, h1]
  refine ⟨gs_rows ss 0, ?_, ?_, ?_, ?_⟩
  · simp [successEffects, figureEffects, firstGridRows]
  · simp [successEffects, figureEffects, firstGridRows, gs_rows]
  · rw [successEffects, singleRowSubplots_append, singleRowSubplots_append,
      singleRowSubplots_scriptSection, singleRowSubplots_cleanupEffects,
      List.append_nil, List.append_nil]
    cases ss <;> cases sp <;>
      simp [figureEffects, singleRowSubplots, singleRowSubplots_append,
        singleRowSubplots_renderTiersGo]
  · rw [successEffects, singleRowSubplots_append, singleRowSubplots_append,
      singleRowSubplots_scriptSection, singleRowSubplots_cleanupEffects,
      List.append_nil, List.append_nil]
    cases ss <;> cases sp <;>
      simp [figureEffects, singleRowSubplots, singleRowSubplots_append]

/-- C4 witness: the per-tier rows at a concrete request with two tiers. -/
theorem tiers_add_one_row_each_witness :
    ∃ r,
      firstGridRows
        (runApp { sampleInputs with uploaded_tg := none }
          sampleEngine).fst = some r ∧
      firstGridRows (runApp sampleInputs sampleEngine).fst =
        some (r + sampleTG.tiers.length) ∧
      singleRowSubplots (runApp sampleInputs sampleEngine).fst =
        (List.range sampleTG.tiers.length).map
          (fun j =>
            (2 + (if sampleInputs.show_spectrogram then 2 else 0)) + j) ∧
      singleRowSubplots
        (runApp { sampleInputs with uploaded_tg := none }
          sampleEngine).fst = [] :=
  tiers_add_one_row_each sampleInputs sampleEngine
    "demo.wav" sampleSound sampleTG samplePitch rfl rfl rfl rfl rfl rfl

/-- C5: for a valid uploaded WAV whose library sound spans `[0, D]`, the
waveform axis's x-limits are set to exactly `[0, D]` (the sound's `xmin`
and `xmax`). -/
theorem waveform_xlim_spans_sound (inp : Inputs) (eng : Engine)
    (w : String) (snd : Sound) (tg : TextGrid) (p : Pitch) (D : ℚ)
    (hw : inp.uploaded_wav = some w)
    (hs : eng.readSound = Except.ok snd)
    (ht : eng.readTextGrid = Except.ok tg)
    (hp : eng.toPitch = Except.ok p)
    (hsp : eng.toSpectrogram = Except.ok ())
    (h0 : snd.xmin = 0) (h1 : snd.xmax = D) :
    Effect.setXlim "wave" 0 D ∈ (runApp inp eng).fst := by
  rw [runApp_success inp eng w snd tg p hw hs ht hp hsp]
  simp [successEffects, figureEffects, h0, h1, List.mem_append]

/-- C5 witness: the x-limits at a concrete three-second sound. -/
theorem waveform_xlim_witness :
    Effect.setXlim "wave" 0 3 ∈ (runApp sampleInputs sampleEngine).fst :=
  waveform_xlim_spans_sound sampleInputs sampleEngine "demo.wav"
    sampleSound sampleTG samplePitch 3 rfl rfl rfl rfl rfl rfl rfl

/-- C6: when the run button is pressed, the script string is handed to the
external engine exactly as entered (the `engineRunScript` effect carries
the input string unchanged), and a non-empty returned output is displayed
with `st.info` (an empty one with the success message instead). -/
theorem script_forwarded_verbatim (inp : Inputs) (eng : Engine)
    (w : String) (snd : Sound) (tg : TextGrid) (p : Pitch) (out : String)
    (hw : inp.uploaded_wav = some w)
    (hs : eng.readSound = Except.ok snd)
    (ht : eng.readTextGrid = Except.ok tg)
    (hp : eng.toPitch = Except.ok p)
    (hsp : eng.toSpectrogram = Except.ok ())
    (hb : inp.run_btn = true)
    (ho : eng.runScript inp.script_code = Except.ok out) :
    Effect.engineRunScript inp.script_code ∈ (runApp inp eng).fst ∧
    (out ≠ "" → Effect.stInfo out ∈ (runApp inp eng).fst) ∧
    (out = "" →
      Effect.stSuccess "腳本執行完成 (無輸出)" ∈ (runApp inp eng).fst) := by
  rw [runApp_success inp eng w snd tg p hw hs ht hp hsp]
  refine ⟨?_, ?_, ?_⟩
  · simp [successEffects, scriptSection, hb, ho, List.mem_append]
  · intro hne
    simp [successEffects, scriptSection, hb, ho, hne, List.mem_append]
  · intro hee
    simp [successEffects, scriptSection, hb, ho, hee, List.mem_append]

/-- C6 witness: verbatim forwarding and display at a concrete request. -/
theorem script_forwarded_verbatim_witness :
    Effect.engineRunScript sampleInputs.script_code ∈
      (runApp sampleInputs sampleEngine).fst ∧
    ("Total Duration: 3.00 s" ≠ "" →
      Effect.stInfo "Total Duration: 3.00 s" ∈
        (runApp sampleInputs sampleEngine).fst) ∧
    ("Total Duration: 3.00 s" = "" →
      Effect.stSuccess "腳本執行完成 (無輸出)" ∈
        (runApp sampleInputs sampleEngine).fst) :=
  script_forwarded_verbatim sampleInputs sampleEngine "demo.wav"
    sampleSound sampleTG samplePitch "Total Duration: 3.00 s"
    rfl rfl rfl rfl rfl rfl rfl

/-- C7: against a sound of any non-negative duration `d`, the default
example script outputs exactly one line, `"Total Duration: "` followed by
the two-decimal rendering of `d` and `" s"`; that rendering denotes the
rational `round (100 d) / 100`, which is `d` rounded to two decimal places
(it differs from `d` by at most 1/200). -/
theorem default_script_reports_duration (d : ℚ) (hd : 0 ≤ d) :
    praatRun default_script d =
      some ["Total Duration: " ++ fixed2 d ++ " s"] ∧
    fixed2Val (fixed2 d) = some ((round (d * 100) : ℚ) / 100) ∧
    |d - (round (d * 100) : ℚ) / 100| ≤ 1 / 200 :=
  ⟨praatRun_default d, fixed2Val_fixed2 d hd, fixed2_round_close d⟩

/-- C7 witness: the default script's output at duration 2.4675 s. -/
theorem default_script_reports_duration_witness :
    (0 : ℚ) ≤ 987 / 400 ∧
    praatRun default_script (987 / 400) =
      some ["Total Duration: " ++ fixed2 (987 / 400) ++ " s"] ∧
    fixed2Val (fixed2 (987 / 400)) =
      some ((round ((987 : ℚ) / 400 * 100) : ℚ) / 100) :=
  ⟨by norm_num,
   (default_script_reports_duration (987 / 400) (by norm_num)).1,
   (default_script_reports_duration (987 / 400) (by norm_num)).2.1⟩

/-- C8: with no WAV uploaded the request only shows the welcome message —
no temp files, no analysis, no figure, no script execution — and its
outcome does not depend on the external library at all. -/
theorem no_wav_shows_only_welcome (inp : Inputs) (eng : Engine)
    (hw : inp.uploaded_wav = none) :
    runApp inp eng = ([Effect.stInfo welcomeMsg], none) ∧
    (∀ eng2 : Engine, runApp inp eng2 = runApp inp eng) := by
  constructor
  · simp [runApp, hw]
  · intro eng2
    simp [runApp, hw]

/-- C8 witness: the welcome-only request at concrete inputs with the run
button pressed and a script entered. -/
theorem no_wav_shows_only_welcome_witness :
    runApp noWavInputs sampleEngine = ([Effect.stInfo welcomeMsg], none) ∧
    (∀ eng2 : Engine,
      runApp noWavInputs eng2 = runApp noWavInputs sampleEngine) :=
  no_wav_shows_only_welcome noWavInputs sampleEngine rfl

/-- C9: a tier whose class is not "IntervalTier" still gets its own row and
its name drawn, but none of its contents: no boundary lines and no text
other than the tier name. -/
theorem non_interval_tier_row_and_name_only (snd : Sound) (n row i : ℕ)
    (tier : Tier) (h : tier.class_name ≠ "IntervalTier") :
    renderTier snd n row i tier =
      [Effect.addSubplot row (row + 1),
       Effect.drawText (snd.xmin - snd.duration * (2 / 100)) tier.name,
       Effect.hideYticks "tg"] ++
      (if i < n - 1 then [Effect.hideXticks "tg"]
       else [Effect.setXlabel "tg" "Time (s)"]) ∧
    (∀ t : ℚ, Effect.axvline t ∉ renderTier snd n row i tier) ∧
    (∀ x s, Effect.drawText x s ∈ renderTier snd n row i tier →
      s = tier.name) := by
  refine ⟨?_, ?_, ?_⟩
  · unfold renderTier
    rw [if_neg h]
    simp
  · intro t
    unfold renderTier
    rw [if_neg h]
    by_cases hin : i < n - 1 <;> simp [hin]
  · intro x s hx
    unfold renderTier at hx
    rw [if_neg h] at hx
    by_cases hin : i < n - 1 <;> simp [hin] at hx <;> tauto

/-- C9 witness: a concrete point tier is rendered as a row with its name
and nothing else. -/
theorem non_interval_tier_witness :
    renderTier sampleSound 2 5 1 samplePointTier =
      [Effect.addSubplot 5 (5 + 1),
       Effect.drawText
         (sampleSound.xmin - sampleSound.duration * (2 / 100))
         samplePointTier.name,
       Effect.hideYticks "tg"] ++
      (if 1 < 2 - 1 then [Effect.hideXticks "tg"]
       else [Effect.setXlabel "tg" "Time (s)"]) ∧
    (∀ t : ℚ, Effect.axvline t ∉ renderTier sampleSound 2 5 1
      samplePointTier) ∧
    (∀ x s, Effect.drawText x s ∈ renderTier sampleSound 2 5 1
      samplePointTier → s = samplePointTier.name) :=
  non_interval_tier_row_and_name_only sampleSound 2 5 1 samplePointTier
    (by decide)

/-- C10: with the pitch overlay on, the plotted pitch values are the
library's frame frequencies with every exact-zero (unvoiced) frame replaced
by NaN (modelled as `none`), frame by frame, and the pitch axis's y-limits
are set to `[0, 500]`. -/
theorem pitch_zeros_become_gaps (inp : Inputs) (eng : Engine)
    (w : String) (snd : Sound) (tg : TextGrid) (p : Pitch)
    (hw : inp.uploaded_wav = some w)
    (hs : eng.readSound = Except.ok snd)
    (ht : eng.readTextGrid = Except.ok tg)
    (hp : eng.toPitch = Except.ok p)
    (hsp : eng.toSpectrogram = Except.ok ())
    (hpt : inp.show_pitch = true) :
    Effect.plotPitch p.xs (nanZero p.frequencies) ∈ (runApp inp eng).fst ∧
    Effect.setYlim "pitch" 0 500 ∈ (runApp inp eng).fst ∧
    (∀ j : ℕ, (nanZero p.frequencies)[j]? =
      (p.frequencies[j]?).map (fun v => if v = 0 then none else some v)) := by
  rw [runApp_success inp eng w snd tg p hw hs ht hp hsp]
  refine ⟨?_, ?_, ?_⟩
  · simp [successEffects, figureEffects, hpt, List.mem_append]
  · simp [successEffects, figureEffects, hpt, List.mem_append]
  · intro j
    simp [nanZero]

/-- C10 witness: the gap replacement at a concrete pitch track whose first
frame is unvoiced. -/
theorem pitch_zeros_become_gaps_witness :
    Effect.plotPitch samplePitch.xs (nanZero samplePitch.frequencies) ∈
      (runApp sampleInputs sampleEngine).fst ∧
    Effect.setYlim "pitch" 0 500 ∈ (runApp sampleInputs sampleEngine).fst ∧
    (∀ j : ℕ, (nanZero samplePitch.frequencies)[j]? =
      (samplePitch.frequencies[j]?).map
        (fun v => if v = 0 then none else some v)) :=
  pitch_zeros_become_gaps sampleInputs sampleEngine "demo.wav"
    sampleSound sampleTG samplePitch rfl rfl rfl rfl rfl rfl

end ElegantPraat
